import Mathlib

/-!
Verification development for the retrieval-and-filtering core of a
retrieval-augmented chat application (PDF / website RAG bot).

The backend retrieval core (similarity conversion, threshold filtering,
turn orchestration) ships only as documentation and frontend callers, so
those parts are modelled from the spec; the frontend streaming client and
chat handler are embedded from the TypeScript source
(frontend/lib/api.ts sendMessageStream, frontend/app/page.tsx
handleSendMessageStream, ChatInput.tsx handleSend).  Real-number
arithmetic of the similarity scores is modelled over the rationals.
-/

set_option linter.unusedVariables false

namespace RagBot

/-- A stored text chunk: id, origin document or URL, source type, text
content and position within its source. -/
structure Chunk where
  id : String
  source : String
  stype : String
  content : String
  chunk_index : Nat
deriving DecidableEq, Repr

/-- A raw nearest-neighbor result: a chunk together with the raw cosine
distance (in the range 0 to 2) reported by the vector store. -/
structure RetrievalHit where
  chunk : Chunk
  distance : ℚ
deriving DecidableEq, Repr

/-- A retrieval hit together with its derived similarity score. -/
structure ScoredHit where
  hit : RetrievalHit
  similarity : ℚ
deriving DecidableEq, Repr

/-- The outcome of relevance filtering: accepted hits in original order and
the answerability flag. -/
structure RetrievalDecision where
  accepted_hits : List ScoredHit
  is_answerable : Bool
deriving DecidableEq, Repr

/-- Modelled from the spec: the distance-to-similarity conversion of the
RelevanceFilter, similarity = clamp(1 - distance/2, 0.0, 1.0), written with
explicit conditionals.  The backend implementation (main.py
retrieve_context) is not among the shipped sources. -/
def similarity (d : ℚ) : ℚ :=
  let s := 1 - d / 2
  if s < 0 then 0 else if 1 < s then 1 else s

/-- Attach the derived similarity score to a retrieval hit. -/
def score (h : RetrievalHit) : ScoredHit :=
  ⟨h, similarity h.distance⟩

/-- Modelled from the spec: RelevanceFilter.filter.  A hit is accepted iff
its similarity is at least the threshold; accepted hits keep their original
order; is_answerable is true iff at least one hit is accepted.  top_k is
passed through without being re-enforced.  The function is total: it raises
no error on any input, in particular not on an empty hit list. -/
def filter (hits : List RetrievalHit) (threshold : ℚ) (top_k : Nat) :
    RetrievalDecision :=
  let accepted := (hits.map score).filter (fun s => threshold ≤ s.similarity)
  ⟨accepted, !accepted.isEmpty⟩

/-- Modelled from the spec: the diagnostic line emitted per scored hit when
the debug-similarity flag is on (source, chunk position, raw distance,
computed similarity, accepted or rejected). -/
def describeHit (threshold : ℚ) (s : ScoredHit) : String :=
  s.hit.chunk.source ++ ":" ++ toString s.hit.chunk.chunk_index ++
    " distance " ++ toString s.hit.distance ++ " similarity " ++
    toString s.similarity ++
    (if threshold ≤ s.similarity then " accepted" else " rejected")

/-- Modelled from the spec: the filter together with its only side effect,
the optional diagnostic emission to an observability sink, made explicit as
state threading.  The decision is computed exactly as in filter; the sink
is appended to only when the debug flag is set. -/
def filterEmit (hits : List RetrievalHit) (threshold : ℚ) (top_k : Nat)
    (debug : Bool) (sink : List String) :
    RetrievalDecision × List String :=
  (filter hits threshold top_k,
    if debug then sink ++ (hits.map score).map (describeHit threshold)
    else sink)

/-- Modelled from the spec: the fixed refusal message returned verbatim when
no chunk clears the threshold. -/
def REFUSAL_MESSAGE : String :=
  "No related information found in the knowledge base."

/-- Modelled from the spec: a query is invalid iff it is empty after
trimming whitespace, i.e. iff every character is whitespace. -/
def blankQuery (q : String) : Bool :=
  q.data.all (fun c => c.isWhitespace)

/-- The error taxonomy of the turn state machine. -/
inductive TurnError where
  | invalidInput
  | upstreamUnavailable
  | generationError
deriving DecidableEq, Repr

/-- The observable outcome of one user turn: the response or error, and
which collaborators were invoked during the turn. -/
structure TurnResult where
  response : Except TurnError String
  embedderCalled : Bool
  composerCalled : Bool
  lmCalled : Bool
deriving Repr

/-- Modelled from the spec: AnswerComposer prompt construction — the query
followed by the accepted chunk contents in order. -/
def buildPrompt (query : String) (hits : List ScoredHit) : String :=
  query ++ " " ++ String.join (hits.map (fun s => s.hit.chunk.content))

/-- Modelled from the spec: the ChatOrchestrator state machine for one user
turn (RECEIVED, EMBEDDING, RETRIEVING, FILTERING, then ANSWERING or
REFUSING).  The external Embedder, VectorStore and language model are
passed as oracles; the result records which of them were invoked.  An
empty-after-trim query fails immediately with invalidInput and calls
nothing; an unanswerable decision returns the refusal message verbatim
without invoking the composer or the language model. -/
def processTurn (query : String) (embedder : String → Option (List ℚ))
    (store : List ℚ → Nat → List RetrievalHit) (lm : String → String)
    (threshold : ℚ) (top_k : Nat) : TurnResult :=
  if blankQuery query then
    { response := Except.error TurnError.invalidInput,
      embedderCalled := false, composerCalled := false, lmCalled := false }
  else
    match embedder query with
    | none =>
        { response := Except.error TurnError.upstreamUnavailable,
          embedderCalled := true, composerCalled := false,
          lmCalled := false }
    | some v =>
        let decision := filter (store v top_k) threshold top_k
        if decision.is_answerable then
          { response :=
              Except.ok (lm (buildPrompt query decision.accepted_hits)),
            embedderCalled := true, composerCalled := true,
            lmCalled := true }
        else
          { response := Except.ok REFUSAL_MESSAGE,
            embedderCalled := true, composerCalled := false,
            lmCalled := false }

/-- One parsed server-sent-events payload of the streaming chat endpoint,
as consumed by sendMessageStream in frontend/lib/api.ts: the optional
error and content fields and the done flag of the JSON object. -/
structure SSEData where
  error : Option String
  content : Option String
  done : Bool
deriving DecidableEq, Repr

/-- JavaScript truthiness of an optional string field: absent and empty
strings are falsy. -/
def truthy : Option String → Bool
  | none => false
  | some s => !(s == "")

/-- The body of the per-line try block of sendMessageStream: a truthy
error field throws; otherwise the line reports its truthy content (if any)
and its done flag. -/
def lineBody (d : SSEData) : Except String (Option String × Bool) :=
  if truthy d.error then Except.error (d.error.getD "")
  else Except.ok (if truthy d.content then d.content else none, d.done)

/-- One line of the stream as processed by sendMessageStream, including the
surrounding catch: a line that fails to parse (modelled as none) is logged
and skipped, and — as in the source — an error thrown by the try body is
caught by the same catch and skipped as well. -/
def handleLine : Option SSEData → Option String × Bool
  | none => (none, false)
  | some d =>
    match lineBody d with
    | Except.error _ => (none, false)
    | Except.ok r => r

/-- The fragment (if any) yielded for one line. -/
def emitted (l : Option SSEData) : List String :=
  match (handleLine l).1 with
  | some c => [c]
  | none => []

/-- Whether processing stops (the generator returns) after this line. -/
def stops (l : Option SSEData) : Bool :=
  (handleLine l).2

/-- The sequence of fragments yielded by sendMessageStream for a list of
stream lines: each line may yield its content, and a line whose done flag
is set ends the stream after its own yield. -/
def processLines : List (Option SSEData) → List String
  | [] => []
  | l :: rest => emitted l ++ if stops l then [] else processLines rest

/-- The streaming chat client sendMessageStream of frontend/lib/api.ts:
a failed HTTP response or missing body throws before any fragment; once
line processing starts, every path returns normally — errors reported by
the server mid-stream are caught by the per-line catch and only logged. -/
def sendMessageStream (httpOk : Bool) (hasBody : Bool)
    (lines : List (Option SSEData)) : Except String (List String) :=
  if !httpOk then Except.error "HTTP error"
  else if !hasBody then Except.error "No response body"
  else Except.ok (processLines lines)

/-- A chat message of the frontend message list (frontend/app/page.tsx);
the Date timestamp is modelled as a natural number. -/
structure Message where
  id : String
  content : String
  sender : String
  timestamp : Nat
deriving DecidableEq, Repr

/-- One fragment update of handleSendMessageStream: setMessages maps over
the list and replaces the content of exactly the messages whose id equals
the bot message id of this turn, leaving every other message unchanged. -/
def applyFragment (msgs : List Message) (botId : String)
    (accumulated : String) : List Message :=
  msgs.map (fun m =>
    if m.id == botId then { m with content := accumulated } else m)

/-- The streaming loop of handleSendMessageStream: starting from the
current message list and an empty accumulator, each received fragment is
appended to the accumulator and the bot message content is set to the
accumulated text.  Returns the final message list and accumulator. -/
def runStreamHandler (msgs : List Message) (botId : String)
    (frags : List String) : List Message × String :=
  frags.foldl
    (fun st c => (applyFragment st.1 botId (st.2 ++ c), st.2 ++ c))
    (msgs, "")

/-- Concatenation of a fragment list, the reference meaning of the
accumulated answer. -/
def concatFrags : List String → String
  | [] => ""
  | c :: cs => c ++ concatFrags cs

/-- C1: for every distance d in the range 0 to 2, the distance-to-similarity
conversion equals clamp(1 - d/2, 0, 1), which on that range is 1 - d/2; the
conversion is monotonically non-increasing in the distance, maps distance 0
to similarity 1 and distance 2 to similarity 0. -/
theorem similarity_conversion_spec :
    (∀ d : ℚ, 0 ≤ d → d ≤ 2 → similarity d = 1 - d / 2)
    ∧ (∀ d e : ℚ, d ≤ e → similarity e ≤ similarity d)
    ∧ similarity 0 = 1 ∧ similarity 2 = 0 := by
  refine ⟨?_, ?_, ?_, ?_⟩
  · intro d h0 h2
    simp only [similarity]
    rw [if_neg (by linarith), if_neg (by linarith)]
  · intro d e h
    simp only [similarity]
    split_ifs <;> linarith
  · simp only [similarity]; norm_num
  · simp only [similarity]; norm_num

/-- Witness for C1 at distance 1: both range bounds hold and the conversion
evaluates to 1 - 1/2. -/
theorem similarity_conversion_spec_witness :
    (0 : ℚ) ≤ 1 ∧ (1 : ℚ) ≤ 2 ∧ similarity 1 = 1 - 1 / 2 :=
  ⟨by norm_num, by norm_num,
    similarity_conversion_spec.1 1 (by norm_num) (by norm_num)⟩

/-- C4: filtering an empty hit sequence returns the decision with no
accepted hits and is_answerable false, for every threshold and top_k; the
filter is a total function, so no error is raised. -/
theorem filter_empty_hits :
    ∀ (t : ℚ) (k : Nat), filter [] t k = ⟨[], false⟩ := by
  intro t k
  rfl

/-- C6: evaluation of the streaming client at a stream whose language-model
service errors after emitting two fragments.  The caller receives the two
fragments and then the stream ends as a successful (ok) result: the
mid-stream error payload is caught by the per-line catch of
sendMessageStream and only logged, so no GenerationError reaches the
caller — the error is silently swallowed as a truncated answer. -/
theorem stream_error_swallowed :
    sendMessageStream true true
        [some ⟨none, some "Hello", false⟩,
          some ⟨none, some " world", false⟩,
          some ⟨some "LLM failure", none, false⟩]
      = Except.ok ["Hello", " world"] := by
  rfl

/-- C9: the filter is deterministic and stateless — threading the
observability sink through two successive calls with identical inputs
yields identical decisions and leaves the sink unchanged, and enabling the
debug flag never alters the decision. -/
theorem filter_deterministic_stateless :
    ∀ (hits : List RetrievalHit) (t : ℚ) (k : Nat) (sink : List String),
      (filterEmit hits t k false sink).1
        = (filterEmit hits t k false (filterEmit hits t k false sink).2).1
      ∧ (filterEmit hits t k false (filterEmit hits t k false sink).2).2
          = sink
      ∧ (filterEmit hits t k true sink).1
          = (filterEmit hits t k false sink).1 := by
  intro hits t k sink
  refine ⟨rfl, ?_, rfl⟩
  simp [filterEmit]

/-- C2: raising the threshold only shrinks the accepted set — for any hit
sequence and thresholds t1 < t2, every hit accepted at t2 is accepted at
t1, and the number of accepted hits at t2 is at most that at t1. -/
theorem filter_threshold_monotone :
    ∀ (hits : List RetrievalHit) (t1 t2 : ℚ) (k : Nat), t1 < t2 →
      (filter hits t2 k).accepted_hits ⊆ (filter hits t1 k).accepted_hits
      ∧ (filter hits t2 k).accepted_hits.length
          ≤ (filter hits t1 k).accepted_hits.length := by
  intro hits t1 t2 k hlt
  have hsub :
      List.Sublist ((hits.map score).filter (fun s => t2 ≤ s.similarity))
        ((hits.map score).filter (fun s => t1 ≤ s.similarity)) := by
    refine List.monotone_filter_right _ ?_
    intro a ha
    simp only [decide_eq_true_eq] at ha ⊢
    linarith
  exact ⟨hsub.subset, hsub.length_le⟩

/-- Witness for C2 at thresholds 1/5 < 2/5 on a one-hit list. -/
theorem filter_threshold_monotone_witness :
    (filter [⟨⟨"a", "s", "pdf", "c", 0⟩, 1/5⟩] (2/5) 4).accepted_hits
        ⊆ (filter [⟨⟨"a", "s", "pdf", "c", 0⟩, 1/5⟩] (1/5) 4).accepted_hits
    ∧ (filter [⟨⟨"a", "s", "pdf", "c", 0⟩, 1/5⟩] (2/5) 4).accepted_hits.length
        ≤ (filter [⟨⟨"a", "s", "pdf", "c", 0⟩, 1/5⟩]
            (1/5) 4).accepted_hits.length :=
  filter_threshold_monotone _ _ _ _ (by norm_num)

/-- C3: the decision is answerable exactly when some hit clears the
threshold — for every hit sequence and threshold in the range 0 to 1,
is_answerable is true iff at least one hit has similarity at least the
threshold. -/
theorem filter_answerable_iff :
    ∀ (hits : List RetrievalHit) (t : ℚ) (k : Nat), 0 ≤ t → t ≤ 1 →
      ((filter hits t k).is_answerable = true ↔
        ∃ h ∈ hits, t ≤ similarity h.distance) := by
  intro hits t k h0 h1
  simp [filter, score, List.isEmpty_iff, List.filter_eq_nil_iff]

/-- Witness for C3 at threshold 3/10 with a single hit of distance 1/5. -/
theorem filter_answerable_iff_witness :
    (filter [⟨⟨"a", "s", "pdf", "c", 0⟩, 1/5⟩] (3/10) 4).is_answerable
        = true ↔
      ∃ h ∈ [(⟨⟨"a", "s", "pdf", "c", 0⟩, 1/5⟩ : RetrievalHit)],
        (3/10 : ℚ) ≤ similarity h.distance :=
  filter_answerable_iff _ _ 4 (by norm_num) (by norm_num)

/-- C5: whenever the retrieval decision of a validated turn is not
answerable, the orchestrator returns the fixed refusal message verbatim and
neither the AnswerComposer nor the language-model service is invoked during
that turn. -/
theorem orchestrator_refusal_short_circuit :
    ∀ (query : String) (embedder : String → Option (List ℚ))
      (store : List ℚ → Nat → List RetrievalHit) (lm : String → String)
      (t : ℚ) (k : Nat) (v : List ℚ),
      blankQuery query = false →
      embedder query = some v →
      (filter (store v k) t k).is_answerable = false →
      processTurn query embedder store lm t k =
        { response := Except.ok REFUSAL_MESSAGE, embedderCalled := true,
          composerCalled := false, lmCalled := false } := by
  intro query embedder store lm t k v hq he hd
  simp [processTurn, hq, he, hd]

/-- Witness for C5, following Scenario B: threshold 3/10 with hits at
distances 8/5 and 9/5 (similarities 1/5 and 1/10, both below threshold)
make the turn refuse without invoking the language model. -/
theorem orchestrator_refusal_short_circuit_witness :
    processTurn "what" (fun _ => some [1])
        (fun _ _ => [⟨⟨"a", "s", "pdf", "c", 0⟩, 8/5⟩,
          ⟨⟨"b", "s", "pdf", "c", 1⟩, 9/5⟩])
        (fun _ => "answer") (3/10) 5 =
      { response := Except.ok REFUSAL_MESSAGE, embedderCalled := true,
        composerCalled := false, lmCalled := false } :=
  orchestrator_refusal_short_circuit _ _ _ _ _ _ [1] (by decide) rfl
    (by simp [filter, score, similarity]; norm_num)

/-- C7: a query that is empty after trimming whitespace makes the turn fail
immediately with InvalidInputError: no state progression happens and the
Embedder (and every other upstream service) is never called. -/
theorem orchestrator_rejects_blank_query :
    ∀ (query : String) (embedder : String → Option (List ℚ))
      (store : List ℚ → Nat → List RetrievalHit) (lm : String → String)
      (t : ℚ) (k : Nat),
      blankQuery query = true →
      processTurn query embedder store lm t k =
        { response := Except.error TurnError.invalidInput,
          embedderCalled := false, composerCalled := false,
          lmCalled := false } := by
  intro query embedder store lm t k hq
  simp [processTurn, hq]

/-- Witness for C7 at the whitespace-only query of two blanks. -/
theorem orchestrator_rejects_blank_query_witness :
    processTurn "  " (fun _ => some [1]) (fun _ _ => [])
        (fun _ => "answer") (3/10) 5 =
      { response := Except.error TurnError.invalidInput,
        embedderCalled := false, composerCalled := false,
        lmCalled := false } :=
  orchestrator_rejects_blank_query _ _ _ _ _ _ (by decide)

/-- C10: each fragment update of the streaming chat handler touches only
the bot message of the current turn — the update preserves the length of
the message list, and every message whose id differs from the bot message
id is left unchanged at its position. -/
theorem fragment_update_frame :
    ∀ (msgs : List Message) (botId acc : String) (i : Nat) (m : Message),
      msgs[i]? = some m → m.id ≠ botId →
      (applyFragment msgs botId acc).length = msgs.length
      ∧ (applyFragment msgs botId acc)[i]? = some m := by
  intro msgs botId acc i m hi hne
  constructor
  · simp [applyFragment]
  · simp [applyFragment, List.getElem?_map, hi, hne]

/-- Witness for C10: updating the bot message (id 2) leaves the user
message (id 1) unchanged at position 0. -/
theorem fragment_update_frame_witness :
    (applyFragment [⟨"1", "hi", "user", 0⟩, ⟨"2", "", "bot", 1⟩]
        "2" "Hello").length
      = ([⟨"1", "hi", "user", 0⟩, ⟨"2", "", "bot", 1⟩] : List Message).length
    ∧ (applyFragment [⟨"1", "hi", "user", 0⟩, ⟨"2", "", "bot", 1⟩]
        "2" "Hello")[0]?
      = some ⟨"1", "hi", "user", 0⟩ :=
  fragment_update_frame _ _ _ 0 _ rfl (by decide)

/-- The accumulator of the streaming loop equals the initial accumulator
followed by the concatenation of the processed fragments. -/
theorem runStreamHandler_acc (frags : List String) :
    ∀ (msgs : List Message) (botId a : String),
      (frags.foldl
          (fun st c => (applyFragment st.1 botId (st.2 ++ c), st.2 ++ c))
          (msgs, a)).2 = a ++ concatFrags frags := by
  induction frags with
  | nil =>
      intro msgs botId a
      simp [concatFrags, String.append_empty]
  | cons c cs ih =>
      intro msgs botId a
      simp only [List.foldl, concatFrags]
      rw [ih, String.append_assoc]

/-- A fragment yielded for a stream line is exactly the content field of
that line. -/
theorem handleLine_content (l : Option SSEData) (c : String)
    (h : (handleLine l).1 = some c) : l.bind SSEData.content = some c := by
  match l with
  | none => simp [handleLine] at h
  | some d =>
      simp only [handleLine, lineBody] at h
      by_cases he : truthy d.error = true
      · rw [if_pos he] at h
        simp at h
      · rw [if_neg he] at h
        by_cases hc : truthy d.content = true
        · rw [if_pos hc] at h
          simpa using h
        · rw [if_neg hc] at h
          simp at h

/-- The fragments yielded by the streaming client form an order-preserving
selection of the content fields of the stream lines. -/
theorem processLines_sublist (lines : List (Option SSEData)) :
    List.Sublist (processLines lines)
      (lines.filterMap (fun l => l.bind SSEData.content)) := by
  induction lines with
  | nil => simp [processLines]
  | cons l rest ih =>
      have htail :
          List.Sublist (if stops l then [] else processLines rest)
            (rest.filterMap (fun x => x.bind SSEData.content)) := by
        by_cases hs : stops l
        · simp [hs]
        · simpa [hs] using ih
      rw [processLines, List.filterMap_cons]
      cases hc : (handleLine l).1 with
      | none =>
          have hemit : emitted l = [] := by simp [emitted, hc]
          rw [hemit, List.nil_append]
          cases hb : l.bind SSEData.content with
          | none => simpa [hb] using htail
          | some b =>
              simp only [hb]
              exact List.Sublist.cons b htail
      | some c =>
          have hemit : emitted l = [c] := by simp [emitted, hc]
          have hb : l.bind SSEData.content = some c := handleLine_content l c hc
          rw [hemit, hb]
          exact List.Sublist.cons₂ c htail

/-- C8: in incremental mode every relayed fragment arrives in order — the
fragments yielded by the streaming client are an order-preserving selection
of the content fields of the received stream lines, and after any number n
of fragments the accumulated answer of the chat handler equals the
concatenation of the first n fragments in order; end-of-stream is signalled
by the done flag and the end of the generator, never as fragment content. -/
theorem stream_relay_in_order :
    ∀ (lines : List (Option SSEData)) (msgs : List Message)
      (botId : String) (n : Nat),
      (runStreamHandler msgs botId ((processLines lines).take n)).2
        = concatFrags ((processLines lines).take n)
      ∧ List.Sublist (processLines lines)
          (lines.filterMap (fun l => l.bind SSEData.content)) := by
  intro lines msgs botId n
  constructor
  · simp only [runStreamHandler]
    rw [runStreamHandler_acc, String.empty_append]
  · exact processLines_sublist lines

end RagBot
